import Mathlib

/-!
Shallow embedding of the wallet fee-bump engine (`src/wallet/feebumper.cpp`)
of cypherstack/particl-core, together with theorems checking the
natural-language specification's claims against it.

Monetary amounts (`CAmount`) are `Int`; `int64_t` sizes are `Int`; txids and
script identifiers are `Nat`.  Collaborating subsystems that live outside the
given sources (chain view, coin selection, fee estimation, ownership tests)
are fields of the `Wallet` environment record, so every function below is
executable once an environment is supplied.
-/

namespace FeeBumper

/-- Result codes of `feebumper::Result`. -/
inductive Result where
  | OK
  | INVALID_ADDRESS_OR_KEY
  | INVALID_PARAMETER
  | WALLET_ERROR
  | MISC_ERROR
deriving DecidableEq, Repr

/-- Tags for the diagnostic strings pushed onto the `errors` vector, one
constructor per distinct message in `feebumper.cpp`.  `alreadySpent` carries
the missing outpoint, as the C++ message interpolates it. -/
inductive Err where
  | descendantsInWallet
  | descendantsInMempool
  | txMined
  | notBip125Replaceable
  | alreadyBumped
  | inputsNotMine
  | todoMapRecordTxn
  | invalidTxid
  | alreadySpent (hash : Nat) (n : Nat)
  | feeRateBelowMempoolMin
  | insufficientTotalFee
  | belowRequiredFee
  | feeTooHigh
  | multipleChangeOutputs
  | noChangeOutput
  | cannotSignInputs
  | changeTooSmall
  | unableToCreateTx
  | couldNotMarkReplaced
deriving DecidableEq, Repr

/-- Model of `COutPoint`: reference to a previous output (txid hash, output index). -/
structure COutPoint where
  hash : Nat
  n : Nat
deriving DecidableEq, Repr

/-- Model of `CTxIn`: transaction input (prevout reference and sequence number). -/
structure CTxIn where
  prevout : COutPoint
  nSequence : Nat
deriving DecidableEq, Repr

/-- Model of `CTxOut` / `CTxOutStandard`: value plus a script identifier standing for
the locking script. -/
structure CTxOut where
  nValue : Int
  scriptPubKey : Nat
deriving DecidableEq, Repr

/-- Model of `CRecipient` as assembled by `CreateRateBumpTransaction`: script, amount,
subtract-fee-from-amount flag. -/
structure CRecipient where
  scriptPubKey : Nat
  nAmount : Int
  fSubtractFeeFromAmount : Bool
deriving DecidableEq, Repr

/-- Modelled from the spec: `CFeeRate` (amount per unit of virtual size, kept
as satoshis per 1000 virtual bytes, the unit the engine's comments call
"fee per kb"); its source file is not among the given sources.  Division is
C++ truncating division (`Int.tdiv`). -/
structure CFeeRate where
  nSatoshisPerK : Int
deriving DecidableEq, Repr

/-- Modelled from the spec: the `CFeeRate(nFeePaid, num_bytes)` constructor,
the rate obtained from a paid fee and a size. -/
def CFeeRate.fromFeeSize (nFeePaid : Int) (num_bytes : Int) : CFeeRate :=
  ⟨if 0 < num_bytes then Int.tdiv (nFeePaid * 1000) num_bytes else 0⟩

/-- Modelled from the spec: `CFeeRate::GetFee(num_bytes)`, the fee this rate
charges for a given size, rounded toward zero but never rounded to zero for a
nonzero size and nonzero rate. -/
def CFeeRate.GetFee (r : CFeeRate) (num_bytes : Int) : Int :=
  let nFee := Int.tdiv (r.nSatoshisPerK * num_bytes) 1000
  if nFee = 0 ∧ num_bytes ≠ 0 then
    if 0 < r.nSatoshisPerK then 1 else if r.nSatoshisPerK < 0 then -1 else 0
  else nFee

/-- Modelled from the spec: `CFeeRate::GetFeePerK()` = `GetFee(1000)`. -/
def CFeeRate.GetFeePerK (r : CFeeRate) : Int := r.GetFee 1000

/-- Modelled from the spec: `CFeeRate` addition (`operator+=` adds the
per-kilobyte amounts). -/
def CFeeRate.add (a b : CFeeRate) : CFeeRate := ⟨a.nSatoshisPerK + b.nSatoshisPerK⟩

/-- The function `std::max` on `CFeeRate` (comparison is on `nSatoshisPerK`). -/
def CFeeRate.fmax (a b : CFeeRate) : CFeeRate :=
  if a.nSatoshisPerK < b.nSatoshisPerK then b else a

/-- Modelled from the spec: the conservative wallet-side incremental relay
constant `WALLET_INCREMENTAL_RELAY_FEE` (sat per 1000 vbytes); its definition
is not among the given sources. -/
def WALLET_INCREMENTAL_RELAY_FEE : Int := 5000

/-- Model of `CWalletTx` together with the per-transaction data the engine reads from
it.  `vout` holds the Bitcoin-style outputs (`tx->vout`), `vpout` the Particl
outputs (`tx->vpout`).  `vsize` stands for `GetVirtualTransactionSize(*tx)`
and `hasReplacedBy` for `mapValue.count("replaced_by_txid") != 0`. -/
structure CWalletTx where
  txid : Nat
  vin : List CTxIn
  vout : List CTxOut
  vpout : List CTxOut
  vsize : Int
  hasReplacedBy : Bool
deriving DecidableEq, Repr

/-- Modelled from the spec: `SignalsOptInRBF` (util/rbf is not among the given
sources) — the BIP-125 opt-in convention: some input's sequence number is at
most 0xfffffffd. -/
def SignalsOptInRBF (tx : CWalletTx) : Bool :=
  tx.vin.any (fun txin => txin.nSequence ≤ 0xfffffffd)

/-- The sum `tx->GetValueOut()` over the Particl outputs: sum of output values. -/
def valueOut (vpout : List CTxOut) : Int :=
  vpout.foldl (fun acc out => acc + out.nValue) 0

/-- The ownership filter argument of `AllInputsMine`. -/
inductive IsMineFilter where
  | spendable
  | watchOnly
deriving DecidableEq, Repr

/-- Model of `CCoinControl` restricted to the fields `feebumper.cpp` touches.
`setSelected` is the forced-selection set (`Select`/`SelectExternal` both
insert into it), `externalSelected` the externally-selected subset. -/
structure CCoinControl where
  setSelected : List COutPoint := []
  externalSelected : List COutPoint := []
  inputWeights : List (COutPoint × Int) := []
  m_feerate : Option CFeeRate := none
  destChange : Option Nat := none
  m_allow_other_inputs : Bool := false
  m_min_depth : Int := 0
  m_signal_bip125_rbf : Option Bool := none
deriving DecidableEq, Repr

/-- Model of `CCoinControl::Select`. -/
def CCoinControl.select (cc : CCoinControl) (p : COutPoint) : CCoinControl :=
  { cc with setSelected := cc.setSelected ++ [p] }

/-- Model of `CCoinControl::SelectExternal` (the provided txout itself is only used by
the external builder, so the model records just the outpoint). -/
def CCoinControl.selectExternal (cc : CCoinControl) (p : COutPoint) : CCoinControl :=
  { cc with setSelected := cc.setSelected ++ [p],
            externalSelected := cc.externalSelected ++ [p] }

/-- Model of `CCoinControl::IsExternalSelected`. -/
def CCoinControl.isExternalSelected (cc : CCoinControl) (p : COutPoint) : Bool :=
  cc.externalSelected.contains p

/-- Model of `CCoinControl::SetInputWeight`. -/
def CCoinControl.setInputWeight (cc : CCoinControl) (p : COutPoint) (w : Int) : CCoinControl :=
  { cc with inputWeights := cc.inputWeights ++ [(p, w)] }

/-- The wallet plus every collaborating service the engine consults.  Each
field stands for one call the code under `src/` makes into code outside it:
chain view queries, ownership tests, fee estimators, the external
coin-selection builder, and the Particl-mode discriminators. -/
structure Wallet where
  /-- call `wallet.chain().mempoolMinFee()` -/
  mempoolMinFee : CFeeRate
  /-- call `wallet.chain().relayIncrementalFee()` -/
  relayIncrementalFee : CFeeRate
  /-- call `wallet.chain().hasDescendantsInMempool(txid)` -/
  hasDescendantsInMempool : Nat → Bool
  /-- call `wallet.chain().findCoins`: `none` models a null (spent/unknown) coin -/
  findCoin : COutPoint → Option CTxOut
  /-- the global `fParticlMode` flag -/
  fParticlMode : Bool
  /-- calls `IsParticlWallet` / `GetParticlWallet` returning non-null -/
  isParticlWallet : Bool
  /-- call `mapWallet.find(txid)` / `GetWalletTx(txid)` -/
  getWalletTx : Nat → Option CWalletTx
  /-- call `mapRecords.find(txid)` membership (the record itself carries no data
  the modelled code reads beyond these keyed queries) -/
  inMapRecords : Nat → Bool
  /-- call `HasWalletSpend(wtx.tx)` keyed by txid -/
  hasWalletSpend : Nat → Bool
  /-- call `HasWalletSpend(hash, rtx)` for record transactions -/
  hasWalletSpendRec : Nat → Bool
  /-- call `GetTxDepthInMainChain(wtx)` keyed by txid -/
  getTxDepthInMainChain : Nat → Int
  /-- call `GetDepthInMainChain(rtx)` for record transactions -/
  getDepthRec : Nat → Int
  /-- call `GetLegacyScriptPubKeyMan() != nullptr` -/
  hasLegacySPKM : Bool
  /-- call `IsWalletFlagSet(WALLET_FLAG_DISABLE_PRIVATE_KEYS)` -/
  disablePrivateKeys : Bool
  /-- call `IsMine`/`AllInputsMine` under `ISMINE_SPENDABLE` -/
  isMineSpendable : COutPoint → Bool
  /-- call `IsMine`/`AllInputsMine` under `ISMINE_WATCH_ONLY` -/
  isMineWatchOnly : COutPoint → Bool
  /-- call `m_default_max_tx_fee` -/
  m_default_max_tx_fee : Int
  /-- call `m_signal_rbf` -/
  m_signal_rbf : Bool
  /-- call `CachedTxGetDebit(wallet, wtx, ISMINE_SPENDABLE)` keyed by txid -/
  getDebit : Nat → Int
  /-- call `CalculateMaximumSignedTxSize(tx, wallet)` keyed by txid (negative
  means some input cannot be signed) -/
  maxSignedTxSize : Nat → Int
  /-- call `CalculateMaximumSignedTxSize(tx, wallet, coin_control).vsize` keyed by
  txid -/
  maxSignedTxVsizeCC : Nat → Int
  /-- call `GetMinimumFee(wallet, size, coin_control, nullptr)` -/
  getMinimumFee : Int → Int
  /-- call `GetRequiredFee(wallet, size)` -/
  getRequiredFee : Int → Int
  /-- call `GetMinimumFeeRate(wallet, coin_control, nullptr)` -/
  getMinimumFeeRate : CCoinControl → CFeeRate
  /-- call `particl::GetDustThreshold(out, GetDiscardRate(wallet))`, a function of
  the output's script type -/
  dustThreshold : Nat → Int
  /-- call `OutputIsChange(wallet, output)` (rate-bump path) -/
  outputIsChange : CTxOut → Bool
  /-- call `CHDWallet::IsChange(output)` (total-bump path) -/
  isChangeP : CTxOut → Bool
  /-- call `GetTransactionInputWeight(txin)` -/
  inputWeight : CTxIn → Int
  /-- call `SignatureWeights::GetWeightDiffToMax()` observed for the input spending
  this outpoint -/
  weightDiffToMax : COutPoint → Int
  /-- the external builder call `CreateTransaction(wallet, recipients, -1, cc,
  false)`: `none` is a failed `util::Result`, `some (fee, vin, vout)` a built
  transaction with its reported fee -/
  createTransaction : List CRecipient → CCoinControl → Option (Int × List CTxIn × List CTxOut)
  /-- call `MarkReplaced(old, new)` succeeding -/
  markReplacedOk : Bool

/-- The ownership filter chosen at `feebumper.cpp:57`:
`wallet.GetLegacyScriptPubKeyMan() && wallet.IsWalletFlagSet(WALLET_FLAG_DISABLE_PRIVATE_KEYS) ? ISMINE_WATCH_ONLY : ISMINE_SPENDABLE`. -/
def ownershipFilter (w : Wallet) : IsMineFilter :=
  if w.hasLegacySPKM ∧ w.disablePrivateKeys then .watchOnly else .spendable

/-- Model of `AllInputsMine(wallet, tx, filter)`: every input's prevout is owned under
the filter. -/
def AllInputsMine (w : Wallet) (tx : CWalletTx) (filter : IsMineFilter) : Bool :=
  tx.vin.all (fun txin =>
    match filter with
    | .spendable => w.isMineSpendable txin.prevout
    | .watchOnly => w.isMineWatchOnly txin.prevout)

/-- Model of `PreconditionChecks(wallet, wtx, require_mine, errors)`
(`feebumper.cpp:25-65`), returning the result together with the grown error
vector. -/
def PreconditionChecks (w : Wallet) (wtx : CWalletTx) (require_mine : Bool)
    (errors : List Err) : Result × List Err :=
  if w.hasWalletSpend wtx.txid then
    (.INVALID_PARAMETER, errors ++ [.descendantsInWallet])
  else if w.hasDescendantsInMempool wtx.txid then
    (.INVALID_PARAMETER, errors ++ [.descendantsInMempool])
  else if w.getTxDepthInMainChain wtx.txid ≠ 0 then
    (.WALLET_ERROR, errors ++ [.txMined])
  else if ¬ SignalsOptInRBF wtx then
    (.WALLET_ERROR, errors ++ [.notBip125Replaceable])
  else if wtx.hasReplacedBy then
    (.WALLET_ERROR, errors ++ [.alreadyBumped])
  else if require_mine ∧ ¬ AllInputsMine w wtx (ownershipFilter w) then
    (.WALLET_ERROR, errors ++ [.inputsNotMine])
  else
    (.OK, errors)

/-- Model of `PreconditionChecks(wallet, hash, rtx, errors)` for `mapRecords`
transactions (`feebumper.cpp:67-107`): after the descendant and depth checks
it unconditionally fails with the TODO message. -/
def PreconditionChecksRecord (w : Wallet) (hash : Nat) (errors : List Err) :
    Result × List Err :=
  if w.hasWalletSpendRec hash then
    (.INVALID_PARAMETER, errors ++ [.descendantsInWallet])
  else if w.hasDescendantsInMempool hash then
    (.INVALID_PARAMETER, errors ++ [.descendantsInMempool])
  else if w.getDepthRec hash ≠ 0 then
    (.WALLET_ERROR, errors ++ [.txMined])
  else
    (.WALLET_ERROR, errors ++ [.todoMapRecordTxn])

/-- Model of `CheckFeeRate(wallet, wtx, newFeerate, maxTxSize, old_fee, errors)`
(`feebumper.cpp:110-159`). -/
def CheckFeeRate (w : Wallet) (wtx : CWalletTx) (newFeerate : CFeeRate)
    (maxTxSize : Int) (old_fee : Int) (errors : List Err) : Result × List Err :=
  if newFeerate.GetFeePerK < w.mempoolMinFee.GetFeePerK then
    (.WALLET_ERROR, errors ++ [.feeRateBelowMempoolMin])
  else
    let new_total_fee := newFeerate.GetFee maxTxSize
    let incrementalRelayFee :=
      CFeeRate.fmax w.relayIncrementalFee ⟨WALLET_INCREMENTAL_RELAY_FEE⟩
    let nOldFeeRate := CFeeRate.fromFeeSize old_fee wtx.vsize
    let minTotalFee := nOldFeeRate.GetFee maxTxSize + incrementalRelayFee.GetFee maxTxSize
    if new_total_fee < minTotalFee then
      (.INVALID_PARAMETER, errors ++ [.insufficientTotalFee])
    else if new_total_fee < w.getRequiredFee maxTxSize then
      (.INVALID_PARAMETER, errors ++ [.belowRequiredFee])
    else if w.m_default_max_tx_fee < new_total_fee then
      (.WALLET_ERROR, errors ++ [.feeTooHigh])
    else
      (.OK, errors)

/-- Model of `EstimateFeeRate(wallet, wtx, old_fee, coin_control)`
(`feebumper.cpp:161-186`). -/
def EstimateFeeRate (w : Wallet) (wtx : CWalletTx) (old_fee : Int)
    (coin_control : CCoinControl) : CFeeRate :=
  let feerate := CFeeRate.fromFeeSize old_fee wtx.vsize
  let feerate := feerate.add ⟨1⟩
  let feerate := feerate.add
    (CFeeRate.fmax w.relayIncrementalFee ⟨WALLET_INCREMENTAL_RELAY_FEE⟩)
  CFeeRate.fmax feerate (w.getMinimumFeeRate coin_control)

/-- Model of `TransactionCanBeBumped(wallet, txid)` (`feebumper.cpp:190-222`). -/
def TransactionCanBeBumped (w : Wallet) (txid : Nat) : Bool :=
  if w.fParticlMode then
    if ¬ w.isParticlWallet then false
    else
      match w.getWalletTx txid with
      | some wtx => (PreconditionChecks w wtx true []).1 = .OK
      | none =>
        if w.inMapRecords txid then (PreconditionChecksRecord w txid []).1 = .OK
        else false
  else
    match w.getWalletTx txid with
    | some wtx => (PreconditionChecks w wtx true []).1 = .OK
    | none => false

/-- First loop of `CreateRateBumpTransaction` (`feebumper.cpp:366-388`):
resolve every input's previous output; on the first null coin report its
outpoint; otherwise select each input into the coin control (plain `Select`
for wallet-owned prevouts, `SelectExternal` otherwise) and accumulate the
input value. -/
def gatherInputs (w : Wallet) :
    List CTxIn → CCoinControl → Int → Except COutPoint (CCoinControl × Int)
  | [], cc, acc => .ok (cc, acc)
  | txin :: rest, cc, acc =>
    match w.findCoin txin.prevout with
    | none => .error txin.prevout
    | some out =>
      let cc' := if w.isMineSpendable txin.prevout ∨ w.isMineWatchOnly txin.prevout
        then cc.select txin.prevout
        else cc.selectExternal txin.prevout
      gatherInputs w rest cc' (acc + out.nValue)

/-- Second loop of `CreateRateBumpTransaction` (`feebumper.cpp:390-412`):
for every externally selected input, record the upper-bound signed weight
(current weight plus the observed signature slack). -/
def setInputWeights (w : Wallet) (vin : List CTxIn) (cc : CCoinControl) : CCoinControl :=
  vin.foldl (fun cc txin =>
    if cc.isExternalSelected txin.prevout then
      cc.setInputWeight txin.prevout
        (w.inputWeight txin + w.weightDiffToMax txin.prevout)
    else cc) cc

/-- Recipient loop of `CreateRateBumpTransaction` (`feebumper.cpp:426-436`):
non-change outputs become recipients, a change output's destination is moved
into the coin control's change slot; the total output value is accumulated. -/
def splitRecipients (w : Wallet) (vout : List CTxOut) :
    List CRecipient × Option Nat × Int :=
  vout.foldl (fun acc out =>
    let (recipients, destChange, output_value) := acc
    if ¬ w.outputIsChange out then
      (recipients ++ [⟨out.scriptPubKey, out.nValue, false⟩], destChange,
        output_value + out.nValue)
    else
      (recipients, some out.scriptPubKey, output_value + out.nValue)) (([], none, 0))

/-- Harvest loop of `CreateRateBumpTransaction` (`feebumper.cpp:466-468`):
force-select every original input. -/
def harvestOriginalInputs (vin : List CTxIn) (cc : CCoinControl) : CCoinControl :=
  vin.foldl (fun cc txin => cc.select txin.prevout) cc

/-- Return value of the rate-bump build.  `res = none` models reaching the
unconditional `assert(false)` (no `Result` is returned there); `builderArg`
records the recipients and coin control handed to the external
`CreateTransaction` call, when it was reached. -/
structure RateBumpRet where
  res : Option Result
  errors : List Err
  old_fee : Int
  new_fee : Int
  mtx : Option (List CTxIn × List CTxOut)
  builderArg : Option (List CRecipient × CCoinControl)
deriving Repr

/-- The shared tail of `CreateRateBumpTransaction` (`feebumper.cpp:459-488`):
force-select every original input, allow extra inputs, set the minimum input
depth to 1, and delegate to the external builder. -/
def finishBuild (w : Wallet) (wtx : CWalletTx) (recipients : List CRecipient)
    (cc : CCoinControl) (errors : List Err) (old_fee : Int) : RateBumpRet :=
  let cc5 := harvestOriginalInputs wtx.vin cc
  let cc6 := { cc5 with m_allow_other_inputs := true, m_min_depth := 1 }
  match w.createTransaction recipients cc6 with
  | none =>
    ⟨some .WALLET_ERROR, errors ++ [.unableToCreateTx], old_fee, 0, none,
      some (recipients, cc6)⟩
  | some (fee, vin, vout) =>
    ⟨some .OK, errors, old_fee, fee, some (vin, vout), some (recipients, cc6)⟩

/-- Model of `CreateRateBumpTransaction(wallet, txid, coin_control, errors, old_fee,
new_fee, mtx, require_mine)` (`feebumper.cpp:351-489`). -/
def CreateRateBumpTransaction (w : Wallet) (txid : Nat) (coin_control : CCoinControl)
    (require_mine : Bool) : RateBumpRet :=
  let new_coin_control := coin_control
  match w.getWalletTx txid with
  | none => ⟨some .INVALID_ADDRESS_OR_KEY, [.invalidTxid], 0, 0, none, none⟩
  | some wtx =>
    match gatherInputs w wtx.vin new_coin_control 0 with
    | .error p => ⟨some .MISC_ERROR, [.alreadySpent p.hash p.n], 0, 0, none, none⟩
    | .ok (cc1, input_value) =>
      let cc2 := setInputWeights w wtx.vin cc1
      let pr := PreconditionChecks w wtx require_mine []
      if pr.1 ≠ .OK then ⟨some pr.1, pr.2, 0, 0, none, none⟩
      else if w.isParticlWallet then
        -- `assert(false)` at feebumper.cpp:424: no Result is ever produced
        ⟨none, pr.2, 0, 0, none, none⟩
      else
        let (recipients, destChange, output_value) := splitRecipients w wtx.vout
        let cc3 := { cc2 with destChange := match destChange with
          | some d => some d
          | none => cc2.destChange }
        let old_fee := input_value - output_value
        match coin_control.m_feerate with
        | some fr =>
          let maxTxSize := w.maxSignedTxVsizeCC wtx.txid
          let cf := CheckFeeRate w wtx fr maxTxSize old_fee pr.2
          if cf.1 ≠ .OK then ⟨some cf.1, cf.2, old_fee, 0, none, none⟩
          else finishBuild w wtx recipients cc3 cf.2 old_fee
        | none =>
          finishBuild w wtx recipients
            { cc3 with m_feerate := some (EstimateFeeRate w wtx old_fee cc3) }
            pr.2 old_fee

/-- Change-output scan of `CreateTotalBumpTransaction` (`feebumper.cpp:243-258`):
`none` means more than one change output was seen, `some none` means none was,
`some (some i)` the unique change output's index. -/
def scanChange (w : Wallet) : List CTxOut → Nat → Option Nat → Option (Option Nat)
  | [], _, cur => some cur
  | out :: rest, i, cur =>
    if w.isChangeP out then
      match cur with
      | some _ => none
      | none => scanChange w rest (i + 1) (some i)
    else scanChange w rest (i + 1) cur

/-- The larger of the node's incremental relay rate and the wallet's
conservative constant, per kilobyte (`feebumper.cpp:275-279`). -/
def totalBumpIncPerK (w : Wallet) : Int :=
  (CFeeRate.fmax w.relayIncrementalFee ⟨WALLET_INCREMENTAL_RELAY_FEE⟩).GetFeePerK

/-- The value `old_fee` of the total-bump path (`feebumper.cpp:269`). -/
def totalBumpOldFee (w : Wallet) (wtx : CWalletTx) : Int :=
  w.getDebit wtx.txid - valueOut wtx.vpout

/-- The new fee rate of the total-bump path after the rate-floor adjustment
(`feebumper.cpp:281-292`). -/
def totalBumpNewRate (w : Wallet) (wtx : CWalletTx) : CFeeRate :=
  let maxNewTxSize := w.maxSignedTxSize wtx.txid
  let rate0 := CFeeRate.fromFeeSize (w.getMinimumFee maxNewTxSize) maxNewTxSize
  let oldRate := CFeeRate.fromFeeSize (totalBumpOldFee w wtx) wtx.vsize
  if rate0.GetFeePerK < oldRate.GetFeePerK + 1 + totalBumpIncPerK w then
    ⟨oldRate.GetFeePerK + 1 + totalBumpIncPerK w⟩
  else rate0

/-- The new fee of the total-bump path after the rate-floor adjustment
(`feebumper.cpp:281-292`). -/
def totalBumpNewFee (w : Wallet) (wtx : CWalletTx) : Int :=
  let maxNewTxSize := w.maxSignedTxSize wtx.txid
  let rate0 := CFeeRate.fromFeeSize (w.getMinimumFee maxNewTxSize) maxNewTxSize
  let oldRate := CFeeRate.fromFeeSize (totalBumpOldFee w wtx) wtx.vsize
  if rate0.GetFeePerK < oldRate.GetFeePerK + 1 + totalBumpIncPerK w then
    (⟨oldRate.GetFeePerK + 1 + totalBumpIncPerK w⟩ : CFeeRate).GetFee maxNewTxSize
  else w.getMinimumFee maxNewTxSize

/-- Raise non-final sequence numbers to the non-replaceable convention
(`feebumper.cpp:338-343`). -/
def raiseSequences (vin : List CTxIn) : List CTxIn :=
  vin.map (fun txin =>
    if txin.nSequence < 0xfffffffe then { txin with nSequence := 0xfffffffe }
    else txin)

/-- Return value of the total-bump build.  `res = none` models the
`assert(nDelta > 0)` failing; `delta` and `changeIdx` expose the computed
`nDelta` and the located change index for the theorems. -/
structure TotalBumpRet where
  res : Option Result
  errors : List Err
  old_fee : Int
  new_fee : Int
  mtx : Option (List CTxIn × List CTxOut)
  delta : Int
  changeIdx : Option Nat
deriving Repr

/-- Model of `CreateTotalBumpTransaction(wallet, txid, coin_control, errors, old_fee,
new_fee, mtx)` (`feebumper.cpp:224-349`). -/
def CreateTotalBumpTransaction (w : Wallet) (txid : Nat)
    (coin_control : CCoinControl) : TotalBumpRet :=
  if ¬ w.isParticlWallet then ⟨some .WALLET_ERROR, [], 0, 0, none, 0, none⟩
  else
    match w.getWalletTx txid with
    | none => ⟨some .INVALID_ADDRESS_OR_KEY, [.invalidTxid], 0, 0, none, 0, none⟩
    | some wtx =>
      let pr := PreconditionChecks w wtx true []
      if pr.1 ≠ .OK then ⟨some pr.1, pr.2, 0, 0, none, 0, none⟩
      else
        match scanChange w wtx.vpout 0 none with
        | none =>
          ⟨some .WALLET_ERROR, pr.2 ++ [.multipleChangeOutputs], 0, 0, none, 0, none⟩
        | some none =>
          ⟨some .WALLET_ERROR, pr.2 ++ [.noChangeOutput], 0, 0, none, 0, none⟩
        | some (some nOutput) =>
          let maxNewTxSize := w.maxSignedTxSize wtx.txid
          if maxNewTxSize < 0 then
            ⟨some .INVALID_ADDRESS_OR_KEY, pr.2 ++ [.cannotSignInputs], 0, 0, none, 0,
              some nOutput⟩
          else
            let old_fee := totalBumpOldFee w wtx
            let new_fee := totalBumpNewFee w wtx
            let nNewFeeRate := totalBumpNewRate w wtx
            if w.m_default_max_tx_fee < new_fee then
              ⟨some .WALLET_ERROR, pr.2 ++ [.feeTooHigh], old_fee, new_fee, none, 0,
                some nOutput⟩
            else if nNewFeeRate.GetFeePerK < w.mempoolMinFee.GetFeePerK then
              ⟨some .WALLET_ERROR, pr.2 ++ [.feeRateBelowMempoolMin], old_fee, new_fee,
                none, 0, some nOutput⟩
            else
              let nDelta := new_fee - old_fee
              if nDelta ≤ 0 then
                -- `assert(nDelta > 0)` at feebumper.cpp:322 fails
                ⟨none, pr.2, old_fee, new_fee, none, nDelta, some nOutput⟩
              else
                let outp := (wtx.vpout.get? nOutput).getD ⟨0, 0⟩
                if outp.nValue < nDelta then
                  ⟨some .WALLET_ERROR, pr.2 ++ [.changeTooSmall], old_fee, new_fee,
                    some (wtx.vin, wtx.vpout), nDelta, some nOutput⟩
                else
                  let outp' : CTxOut := { outp with nValue := outp.nValue - nDelta }
                  let vin' :=
                    if ¬ (coin_control.m_signal_bip125_rbf.getD w.m_signal_rbf) then
                      raiseSequences wtx.vin
                    else wtx.vin
                  if outp'.nValue ≤ w.dustThreshold outp'.scriptPubKey then
                    ⟨some .OK, pr.2, old_fee, new_fee + outp'.nValue,
                      some (vin', wtx.vpout.set nOutput outp' |>.eraseIdx nOutput),
                      nDelta, some nOutput⟩
                  else
                    ⟨some .OK, pr.2, old_fee, new_fee,
                      some (vin', wtx.vpout.set nOutput outp'), nDelta, some nOutput⟩

/-- Model of `CommitTransaction(wallet, txid, mtx, errors, bumped_txid)`
(`feebumper.cpp:496-528`).  The caller-supplied error vector is *not*
cleared. -/
def CommitTransaction (w : Wallet) (txid : Nat) (errors : List Err) :
    Result × List Err :=
  if errors ≠ [] then (.MISC_ERROR, errors)
  else
    match (if txid = 0 then none else w.getWalletTx txid) with
    | none => (.MISC_ERROR, errors ++ [.invalidTxid])
    | some wtx =>
      let pr := PreconditionChecks w wtx false errors
      if pr.1 ≠ .OK then (pr.1, pr.2)
      else if ¬ w.markReplacedOk then
        (.OK, pr.2 ++ [.couldNotMarkReplaced])
      else (.OK, pr.2)

/-! ### Spec-side definitions for refutation of claims

These two definitions follow the words of the claims being checked, not the
source; each is compared against the source-derived model above. -/

/-- Follows claim C4's words: the ownership filter the claim describes —
watch-only whenever private keys are disabled (with no mention of a legacy
script-pubkey manager). -/
def claimedOwnershipFilter (w : Wallet) : IsMineFilter :=
  if w.disablePrivateKeys then .watchOnly else .spendable

/-- Follows claim C4's words: the Result claim C4 predicts for the
precondition checker. -/
def claimC4Result (w : Wallet) (wtx : CWalletTx) (require_ownership : Bool) : Result :=
  if w.hasWalletSpend wtx.txid ∨ w.hasDescendantsInMempool wtx.txid then
    .INVALID_PARAMETER
  else if w.getTxDepthInMainChain wtx.txid ≠ 0 ∨ ¬ SignalsOptInRBF wtx ∨
      wtx.hasReplacedBy then
    .WALLET_ERROR
  else if require_ownership ∧ ¬ AllInputsMine w wtx (claimedOwnershipFilter w) then
    .WALLET_ERROR
  else .OK

/-- Follows claim C8's words: unconfirmed, signalling replaceability, not
already bumped, and without spending descendants in wallet or mempool (claim
C8 lists no ownership condition). -/
def eligibleC8 (w : Wallet) (wtx : CWalletTx) : Prop :=
  w.getTxDepthInMainChain wtx.txid = 0 ∧ SignalsOptInRBF wtx = true ∧
  wtx.hasReplacedBy = false ∧ w.hasWalletSpend wtx.txid = false ∧
  w.hasDescendantsInMempool wtx.txid = false

/-! ### Concrete environments used by witnesses and counterexamples -/

/-- An eligible, fully wallet-owned, BIP-125-signalling unconfirmed
transaction: one input, one non-change output. -/
def TXr : CWalletTx :=
  { txid := 1, vin := [⟨⟨11, 0⟩, 0xfffffffd⟩], vout := [⟨99900, 5⟩],
    vpout := [⟨99900, 5⟩], vsize := 225, hasReplacedBy := false }

/-- A Particl transaction with no recognizable change output (script 5 is not
a change script). -/
def TXtb1 : CWalletTx :=
  { txid := 1, vin := [⟨⟨11, 0⟩, 0xfffffffd⟩], vout := [],
    vpout := [⟨500, 5⟩], vsize := 225, hasReplacedBy := false }

/-- A Particl transaction with one small change output (script 99 is the
change script in the concrete wallets below). -/
def TXtb2 : CWalletTx :=
  { txid := 1, vin := [⟨⟨11, 0⟩, 0xfffffffd⟩], vout := [],
    vpout := [⟨600, 99⟩], vsize := 225, hasReplacedBy := false }

/-- A Particl transaction whose change output shrinks into dust when bumped. -/
def TXd1 : CWalletTx :=
  { txid := 1, vin := [⟨⟨11, 0⟩, 0xfffffffd⟩], vout := [],
    vpout := [⟨2000, 99⟩], vsize := 225, hasReplacedBy := false }

/-- A Particl transaction whose change output stays above the dust threshold
when bumped. -/
def TXd2 : CWalletTx :=
  { txid := 1, vin := [⟨⟨11, 0⟩, 0xfffffffd⟩], vout := [],
    vpout := [⟨5000, 99⟩], vsize := 225, hasReplacedBy := false }

/-- A benign base environment: Bitcoin-mode wallet, no descendants, every
prevout resolvable and spendable-owned, script 99 recognized as change. -/
def W0 : Wallet :=
  { mempoolMinFee := ⟨1000⟩
    relayIncrementalFee := ⟨1000⟩
    hasDescendantsInMempool := fun _ => false
    findCoin := fun _ => some ⟨100000, 7⟩
    fParticlMode := false
    isParticlWallet := false
    getWalletTx := fun _ => none
    inMapRecords := fun _ => false
    hasWalletSpend := fun _ => false
    hasWalletSpendRec := fun _ => false
    getTxDepthInMainChain := fun _ => 0
    getDepthRec := fun _ => 0
    hasLegacySPKM := false
    disablePrivateKeys := false
    isMineSpendable := fun _ => true
    isMineWatchOnly := fun _ => false
    m_default_max_tx_fee := 10000000
    m_signal_rbf := true
    getDebit := fun _ => 0
    maxSignedTxSize := fun _ => 300
    maxSignedTxVsizeCC := fun _ => 300
    getMinimumFee := fun sz => sz
    getRequiredFee := fun sz => sz
    getMinimumFeeRate := fun _ => ⟨1000⟩
    dustThreshold := fun _ => 546
    outputIsChange := fun out => out.scriptPubKey == 99
    isChangeP := fun out => out.scriptPubKey == 99
    inputWeight := fun _ => 200
    weightDiffToMax := fun _ => 5
    createTransaction := fun _ _ => some (562, [], [])
    markReplacedOk := true }

/-- The base wallet holding `TXr` under txid 1. -/
def W1 : Wallet := { W0 with getWalletTx := fun t => if t = 1 then some TXr else none }

/-- A descriptor-style wallet with private keys disabled: no legacy
script-pubkey manager, every prevout watch-only-owned but not
spendable-owned. -/
def W4 : Wallet :=
  { W1 with disablePrivateKeys := true,
            isMineSpendable := fun _ => false,
            isMineWatchOnly := fun _ => true }

/-- The base wallet with `TXr` present but some of its inputs not owned. -/
def W8 : Wallet := { W1 with isMineSpendable := fun _ => false }

/-- A wallet where `TXr` both has wallet descendants and references an
unresolvable previous output. -/
def W9 : Wallet :=
  { W1 with hasWalletSpend := fun _ => true, findCoin := fun _ => none }

/-- A wallet where `TXr` has wallet descendants but every previous output
resolves. -/
def W9b : Wallet := { W1 with hasWalletSpend := fun _ => true }

/-- The base wallet as a Particl wallet. -/
def W10 : Wallet := { W1 with isParticlWallet := true }

/-- A Particl wallet holding the change-free transaction `TXtb1`. -/
def WT1 : Wallet :=
  { W0 with isParticlWallet := true,
            getWalletTx := fun t => if t = 1 then some TXtb1 else none }

/-- A Particl wallet holding `TXtb2`, with fees arranged so the bump delta
exceeds the change value. -/
def WT2 : Wallet :=
  { W0 with isParticlWallet := true,
            getWalletTx := fun t => if t = 1 then some TXtb2 else none,
            getDebit := fun _ => 700,
            getMinimumFee := fun sz => 10 * sz }

/-- A Particl wallet holding `TXd1` (dust-folding total-bump scenario). -/
def WD1 : Wallet :=
  { W0 with isParticlWallet := true,
            getWalletTx := fun t => if t = 1 then some TXd1 else none,
            getDebit := fun _ => 2100 }

/-- A Particl wallet holding `TXd2` (change-keeping total-bump scenario). -/
def WD2 : Wallet :=
  { W0 with isParticlWallet := true,
            getWalletTx := fun t => if t = 1 then some TXd2 else none,
            getDebit := fun _ => 5100 }

/-- The base wallet where marking the original as replaced fails. -/
def W5c : Wallet := { W1 with markReplacedOk := false }

/-- The result of a concrete successful rate-bump run. -/
def rb1 : RateBumpRet := CreateRateBumpTransaction W1 1 {} false

/-- The recipients handed to the external builder in `rb1`. -/
def recips1 : List CRecipient := (rb1.builderArg.getD ([], {})).1

/-- The coin control handed to the external builder in `rb1`. -/
def ccF1 : CCoinControl := (rb1.builderArg.getD ([], {})).2

/-! ### Helper lemmas -/

/-- The maximum of two fee rates is the integer maximum per kilobyte. -/
theorem CFeeRate.fmax_nSat (a b : CFeeRate) :
    (CFeeRate.fmax a b).nSatoshisPerK = max a.nSatoshisPerK b.nSatoshisPerK := by
  unfold CFeeRate.fmax
  split <;> omega

/-- The precondition checker returns OK exactly when none of its six guards
fires. -/
theorem PreconditionChecks_fst_eq_OK_iff (w : Wallet) (wtx : CWalletTx)
    (require_mine : Bool) (errors : List Err) :
    (PreconditionChecks w wtx require_mine errors).1 = .OK ↔
      (w.hasWalletSpend wtx.txid = false ∧
       w.hasDescendantsInMempool wtx.txid = false ∧
       w.getTxDepthInMainChain wtx.txid = 0 ∧
       SignalsOptInRBF wtx = true ∧
       wtx.hasReplacedBy = false ∧
       (require_mine = true → AllInputsMine w wtx (ownershipFilter w) = true)) := by
  unfold PreconditionChecks
  split_ifs with h1 h2 h3 h4 h5 h6 <;> simp_all

/-- An OK precondition check leaves the error vector unchanged. -/
theorem PreconditionChecks_snd_of_ok (w : Wallet) (wtx : CWalletTx)
    (require_mine : Bool) (errors : List Err)
    (h : (PreconditionChecks w wtx require_mine errors).1 = .OK) :
    (PreconditionChecks w wtx require_mine errors).2 = errors := by
  unfold PreconditionChecks at h ⊢
  split_ifs at h ⊢ <;> simp_all

/-- A failing precondition check leaves a nonempty error vector. -/
theorem PreconditionChecks_snd_ne_nil_of_not_ok (w : Wallet) (wtx : CWalletTx)
    (require_mine : Bool) (errors : List Err)
    (h : (PreconditionChecks w wtx require_mine errors).1 ≠ .OK) :
    (PreconditionChecks w wtx require_mine errors).2 ≠ [] := by
  unfold PreconditionChecks at h ⊢
  split_ifs at h ⊢ <;> simp_all

/-- An OK fee-rate check leaves the error vector unchanged. -/
theorem CheckFeeRate_snd_of_ok (w : Wallet) (wtx : CWalletTx) (fr : CFeeRate)
    (maxTxSize old_fee : Int) (errors : List Err)
    (h : (CheckFeeRate w wtx fr maxTxSize old_fee errors).1 = .OK) :
    (CheckFeeRate w wtx fr maxTxSize old_fee errors).2 = errors := by
  simp only [CheckFeeRate] at h ⊢
  split_ifs at h ⊢ <;> simp_all

/-- A failing fee-rate check leaves a nonempty error vector. -/
theorem CheckFeeRate_snd_ne_nil_of_not_ok (w : Wallet) (wtx : CWalletTx)
    (fr : CFeeRate) (maxTxSize old_fee : Int) (errors : List Err)
    (h : (CheckFeeRate w wtx fr maxTxSize old_fee errors).1 ≠ .OK) :
    (CheckFeeRate w wtx fr maxTxSize old_fee errors).2 ≠ [] := by
  simp only [CheckFeeRate] at h ⊢
  split_ifs at h ⊢ <;> simp_all

/-- Selecting an outpoint only grows the forced-selection set. -/
theorem select_setSelected_mono (cc : CCoinControl) (p q : COutPoint)
    (h : p ∈ cc.setSelected) : p ∈ (cc.select q).setSelected := by
  unfold CCoinControl.select
  simp only [List.mem_append]
  exact Or.inl h

/-- Membership in the forced-selection set survives the harvest fold. -/
theorem harvest_setSelected_mono (vin : List CTxIn) (cc : CCoinControl)
    (p : COutPoint) (h : p ∈ cc.setSelected) :
    p ∈ (harvestOriginalInputs vin cc).setSelected := by
  induction vin generalizing cc with
  | nil => exact h
  | cons txin rest ih =>
    exact ih (cc.select txin.prevout) (select_setSelected_mono cc p txin.prevout h)

/-- After the harvest fold, every original input's prevout is in the
forced-selection set. -/
theorem harvest_selects_all (vin : List CTxIn) (cc : CCoinControl) :
    ∀ txin ∈ vin, txin.prevout ∈ (harvestOriginalInputs vin cc).setSelected := by
  induction vin generalizing cc with
  | nil => intro txin h; cases h
  | cons hd rest ih =>
    intro txin h
    rcases List.mem_cons.mp h with h | h
    · subst h
      show txin.prevout ∈ (harvestOriginalInputs rest (cc.select txin.prevout)).setSelected
      exact harvest_setSelected_mono rest _ _ (by
        unfold CCoinControl.select
        simp)
    · exact ih (cc.select hd.prevout) txin h

/-- Erasing the updated index erases the update. -/
theorem eraseIdx_set (l : List CTxOut) (i : Nat) (x : CTxOut) :
    (l.set i x).eraseIdx i = l.eraseIdx i := by
  induction l generalizing i with
  | nil => simp
  | cons hd tl ih =>
    cases i with
    | zero => simp
    | succ j => simp [List.set, List.eraseIdx, ih]

/-! ### Claim theorems -/

/-- Claim C2 (confirmed): the explicit fee-rate validator rejects with
WALLET_ERROR a rate below the mempool minimum; otherwise rejects with
INVALID_PARAMETER a projected total fee below the old rate plus the larger
incremental relay rate, both projected at the maximum signed size; otherwise
rejects with INVALID_PARAMETER a total below the wallet's required fee;
otherwise rejects with WALLET_ERROR a total above the wallet's maximum fee
ceiling; otherwise returns OK — in exactly that order. -/
theorem claim_C2 (w : Wallet) (wtx : CWalletTx) (new_rate : CFeeRate)
    (max_vsize old_fee : Int) (errors : List Err) :
    (new_rate.GetFeePerK < w.mempoolMinFee.GetFeePerK →
      (CheckFeeRate w wtx new_rate max_vsize old_fee errors).1 = .WALLET_ERROR) ∧
    (¬ new_rate.GetFeePerK < w.mempoolMinFee.GetFeePerK →
      new_rate.GetFee max_vsize <
          (CFeeRate.fromFeeSize old_fee wtx.vsize).GetFee max_vsize +
          (CFeeRate.fmax w.relayIncrementalFee ⟨WALLET_INCREMENTAL_RELAY_FEE⟩).GetFee
            max_vsize →
      (CheckFeeRate w wtx new_rate max_vsize old_fee errors).1 = .INVALID_PARAMETER) ∧
    (¬ new_rate.GetFeePerK < w.mempoolMinFee.GetFeePerK →
      ¬ new_rate.GetFee max_vsize <
          (CFeeRate.fromFeeSize old_fee wtx.vsize).GetFee max_vsize +
          (CFeeRate.fmax w.relayIncrementalFee ⟨WALLET_INCREMENTAL_RELAY_FEE⟩).GetFee
            max_vsize →
      new_rate.GetFee max_vsize < w.getRequiredFee max_vsize →
      (CheckFeeRate w wtx new_rate max_vsize old_fee errors).1 = .INVALID_PARAMETER) ∧
    (¬ new_rate.GetFeePerK < w.mempoolMinFee.GetFeePerK →
      ¬ new_rate.GetFee max_vsize <
          (CFeeRate.fromFeeSize old_fee wtx.vsize).GetFee max_vsize +
          (CFeeRate.fmax w.relayIncrementalFee ⟨WALLET_INCREMENTAL_RELAY_FEE⟩).GetFee
            max_vsize →
      ¬ new_rate.GetFee max_vsize < w.getRequiredFee max_vsize →
      w.m_default_max_tx_fee < new_rate.GetFee max_vsize →
      (CheckFeeRate w wtx new_rate max_vsize old_fee errors).1 = .WALLET_ERROR) ∧
    (¬ new_rate.GetFeePerK < w.mempoolMinFee.GetFeePerK →
      ¬ new_rate.GetFee max_vsize <
          (CFeeRate.fromFeeSize old_fee wtx.vsize).GetFee max_vsize +
          (CFeeRate.fmax w.relayIncrementalFee ⟨WALLET_INCREMENTAL_RELAY_FEE⟩).GetFee
            max_vsize →
      ¬ new_rate.GetFee max_vsize < w.getRequiredFee max_vsize →
      ¬ w.m_default_max_tx_fee < new_rate.GetFee max_vsize →
      (CheckFeeRate w wtx new_rate max_vsize old_fee errors).1 = .OK) := by
  simp only [CheckFeeRate]
  split_ifs with h1 h2 h3 h4 <;>
    refine ⟨?_, ?_, ?_, ?_, ?_⟩ <;> intros <;> simp_all

/-- Witness for claim C2: a concrete rate that clears all four checks is
accepted with OK. -/
theorem claim_C2_witness :
    (CheckFeeRate W0 TXr ⟨10000⟩ 300 100 []).1 = .OK :=
  (claim_C2 W0 TXr ⟨10000⟩ 300 100 []).2.2.2.2
    (by decide) (by decide) (by decide) (by decide)

/-- Claim C3 (confirmed): without an explicit rate, the estimated replacement
rate is the maximum of (old fee over original vsize, plus one satoshi per
kilobyte, plus the larger of the node's incremental relay rate and the
wallet's conservative constant) and the wallet's general minimum fee-rate
estimate; in particular it is never below the former. -/
theorem claim_C3 (w : Wallet) (wtx : CWalletTx) (old_fee : Int)
    (cc : CCoinControl) :
    (EstimateFeeRate w wtx old_fee cc).nSatoshisPerK =
      max ((CFeeRate.fromFeeSize old_fee wtx.vsize).nSatoshisPerK + 1 +
            max w.relayIncrementalFee.nSatoshisPerK WALLET_INCREMENTAL_RELAY_FEE)
          (w.getMinimumFeeRate cc).nSatoshisPerK ∧
    (CFeeRate.fromFeeSize old_fee wtx.vsize).nSatoshisPerK + 1 +
        max w.relayIncrementalFee.nSatoshisPerK WALLET_INCREMENTAL_RELAY_FEE ≤
      (EstimateFeeRate w wtx old_fee cc).nSatoshisPerK := by
  unfold EstimateFeeRate CFeeRate.add
  refine ⟨?_, ?_⟩
  · simp [CFeeRate.fmax_nSat]
  · simp only [CFeeRate.fmax_nSat]
    exact le_max_left _ _

/-- Claim C4 counterexample: on a wallet with private keys disabled but no
legacy script-pubkey manager, whose inputs are watch-only-owned but not
spendable-owned, the checker returns WALLET_ERROR while the claim (whose
filter is watch-only whenever private keys are disabled) predicts OK. -/
theorem claim_C4_cex :
    W4.disablePrivateKeys = true ∧ W4.hasLegacySPKM = false ∧
    AllInputsMine W4 TXr (claimedOwnershipFilter W4) = true ∧
    claimC4Result W4 TXr true = .OK ∧
    (PreconditionChecks W4 TXr true []).1 ≠ claimC4Result W4 TXr true := by
  refine ⟨rfl, rfl, by decide, by decide, by decide⟩

/-- Claim C4 as amended: the precondition checker returns INVALID_PARAMETER
on a wallet or mempool descendant; otherwise WALLET_ERROR on nonzero depth,
missing BIP-125 signal, or an existing replaced_by_txid entry; with ownership
required it returns WALLET_ERROR unless every input's prevout is owned —
under the watch-only filter when the wallet has a legacy script-pubkey
manager AND private keys are disabled, under the spendable filter otherwise;
else OK. -/
theorem claim_C4 (w : Wallet) (wtx : CWalletTx) (require_ownership : Bool)
    (errors : List Err) :
    (PreconditionChecks w wtx require_ownership errors).1 =
      (if w.hasWalletSpend wtx.txid ∨ w.hasDescendantsInMempool wtx.txid then
        .INVALID_PARAMETER
      else if w.getTxDepthInMainChain wtx.txid ≠ 0 ∨ ¬ SignalsOptInRBF wtx ∨
          wtx.hasReplacedBy then
        .WALLET_ERROR
      else if require_ownership ∧ ¬ AllInputsMine w wtx (ownershipFilter w) then
        .WALLET_ERROR
      else .OK) := by
  unfold PreconditionChecks
  split_ifs <;> simp_all

/-- Claim C8 counterexample: a transaction that is unconfirmed, signalling,
not already bumped and descendant-free, but with a non-owned input, is
reported as not bumpable — the claim predicts true. -/
theorem claim_C8_cex :
    W8.getWalletTx 1 = some TXr ∧ eligibleC8 W8 TXr ∧
    TransactionCanBeBumped W8 1 = false :=
  ⟨rfl, by unfold eligibleC8; decide, by decide⟩

/-- Claim C8 as amended: for a wallet whose Particl mode matches, a
transaction present in the wallet map is bumpable exactly when it is
descendant-free (wallet and mempool), unconfirmed, BIP-125 signalling, not
already bumped, AND every input's prevout is wallet-owned under the code's
ownership filter. -/
theorem claim_C8 (w : Wallet) (txid : Nat) (wtx : CWalletTx)
    (hmode : w.fParticlMode = true → w.isParticlWallet = true)
    (hfind : w.getWalletTx txid = some wtx) :
    TransactionCanBeBumped w txid = true ↔
      (w.hasWalletSpend wtx.txid = false ∧
       w.hasDescendantsInMempool wtx.txid = false ∧
       w.getTxDepthInMainChain wtx.txid = 0 ∧
       SignalsOptInRBF wtx = true ∧
       wtx.hasReplacedBy = false ∧
       AllInputsMine w wtx (ownershipFilter w) = true) := by
  unfold TransactionCanBeBumped
  by_cases hP : w.fParticlMode = true
  · have hPW := hmode hP
    simp [hP, hPW, hfind, PreconditionChecks_fst_eq_OK_iff]
  · simp only [Bool.not_eq_true] at hP
    simp [hP, hfind, PreconditionChecks_fst_eq_OK_iff]

/-- Claim C8 witness: a fully eligible, fully owned transaction is
bumpable. -/
theorem claim_C8_witness : TransactionCanBeBumped W1 1 = true :=
  (claim_C8 W1 1 TXr (by decide) rfl).mpr (by decide)

/-- Claim C1 (confirmed): whenever the rate-bump build reaches input
harvesting (equivalently, invokes the external builder), every original
input's prevout is in the forced-selection set of the coin control handed to
the builder, and that coin control's minimum-confirmation depth is 1. -/
theorem claim_C1 (w : Wallet) (txid : Nat) (cc : CCoinControl) (rm : Bool)
    (wtx : CWalletTx) (recips : List CRecipient) (ccF : CCoinControl)
    (hfind : w.getWalletTx txid = some wtx)
    (hbuild : (CreateRateBumpTransaction w txid cc rm).builderArg =
      some (recips, ccF)) :
    (∀ txin ∈ wtx.vin, txin.prevout ∈ ccF.setSelected) ∧ ccF.m_min_depth = 1 := by
  simp only [CreateRateBumpTransaction, finishBuild, hfind] at hbuild
  repeat' split at hbuild
  all_goals (try (exfalso; simp at hbuild; done))
  all_goals simp only [Option.some.injEq, Prod.mk.injEq] at hbuild
  all_goals (
    obtain ⟨h1, h2⟩ := hbuild
    subst h2
    exact ⟨fun txin ht => harvest_selects_all wtx.vin _ txin ht, rfl⟩)

/-- Claim C1 witness: the concrete successful rate-bump run `rb1` hands the
builder a coin control containing the original input's prevout with minimum
depth 1. -/
theorem claim_C1_witness :
    (⟨11, 0⟩ : COutPoint) ∈ ccF1.setSelected ∧ ccF1.m_min_depth = 1 :=
  ⟨(claim_C1 W1 1 {} false TXr recips1 ccF1 rfl rfl).1
      ⟨⟨11, 0⟩, 0xfffffffd⟩ (by decide),
   (claim_C1 W1 1 {} false TXr recips1 ccF1 rfl rfl).2⟩

/-- Claim C9 counterexample: a transaction that both has wallet descendants
(a failing precondition) and references an unresolvable previous output is
rejected with MISC_ERROR naming the outpoint, not with the precondition
checker's INVALID_PARAMETER — the lookup runs first. -/
theorem claim_C9_cex :
    W9.getWalletTx 1 = some TXr ∧
    W9.hasWalletSpend TXr.txid = true ∧
    (⟨⟨11, 0⟩, 0xfffffffd⟩ : CTxIn) ∈ TXr.vin ∧
    W9.findCoin ⟨11, 0⟩ = none ∧
    (PreconditionChecks W9 TXr true []).1 = .INVALID_PARAMETER ∧
    (CreateRateBumpTransaction W9 1 {} true).res ≠
      some (PreconditionChecks W9 TXr true []).1 :=
  ⟨rfl, rfl, by decide, rfl, by decide, by decide⟩

/-- Claim C9 as amended: in the rate-bump path the previous-output lookup
runs before the precondition checker; when an input's previous output cannot
be located the build returns MISC_ERROR identifying that outpoint (even if a
precondition also fails), and the precondition checker's Result is returned
only when every previous output resolves. -/
theorem claim_C9 (w : Wallet) (txid : Nat) (cc : CCoinControl) (rm : Bool)
    (wtx : CWalletTx) (hfind : w.getWalletTx txid = some wtx) :
    (∀ p : COutPoint, gatherInputs w wtx.vin cc 0 = .error p →
      (CreateRateBumpTransaction w txid cc rm).res = some .MISC_ERROR ∧
      (CreateRateBumpTransaction w txid cc rm).errors =
        [.alreadySpent p.hash p.n]) ∧
    (∀ (cc1 : CCoinControl) (iv : Int),
      gatherInputs w wtx.vin cc 0 = .ok (cc1, iv) →
      (PreconditionChecks w wtx rm []).1 ≠ .OK →
      (CreateRateBumpTransaction w txid cc rm).res =
        some (PreconditionChecks w wtx rm []).1) := by
  constructor
  · intro p hp
    simp only [CreateRateBumpTransaction, hfind, hp]
    refine ⟨?_, ?_⟩ <;> simp
  · intro cc1 iv hg hne
    simp only [CreateRateBumpTransaction, hfind, hg]
    rw [if_pos hne]

/-- Claim C9 witness: the two amended branches at concrete inputs — a missing
prevout yields MISC_ERROR with its outpoint named; with prevouts resolving,
the descendant-failure Result is surfaced. -/
theorem claim_C9_witness :
    ((CreateRateBumpTransaction W9 1 {} true).res = some .MISC_ERROR ∧
      (CreateRateBumpTransaction W9 1 {} true).errors = [.alreadySpent 11 0]) ∧
    (CreateRateBumpTransaction W9b 1 {} true).res =
      some (PreconditionChecks W9b TXr true []).1 :=
  ⟨(claim_C9 W9 1 {} true TXr rfl).1 ⟨11, 0⟩ rfl,
   (claim_C9 W9b 1 {} true TXr rfl).2 { setSelected := [⟨11, 0⟩] } 100000
     rfl (by decide)⟩

/-- Claim C10 (confirmed): a rate-bump on a Particl wallet that finds the
transaction, resolves every previous output and passes the preconditions
reaches the unconditional assertion — no Result is produced and the builder
is never invoked; dually, a total-bump on a non-Particl wallet returns
WALLET_ERROR. -/
theorem claim_C10 :
    (∀ (w : Wallet) (txid : Nat) (cc : CCoinControl) (rm : Bool)
      (wtx : CWalletTx) (cc1 : CCoinControl) (iv : Int),
      w.isParticlWallet = true →
      w.getWalletTx txid = some wtx →
      gatherInputs w wtx.vin cc 0 = .ok (cc1, iv) →
      (PreconditionChecks w wtx rm []).1 = .OK →
      (CreateRateBumpTransaction w txid cc rm).res = none ∧
      (CreateRateBumpTransaction w txid cc rm).builderArg = none) ∧
    (∀ (w : Wallet) (txid : Nat) (cc : CCoinControl),
      w.isParticlWallet = false →
      (CreateTotalBumpTransaction w txid cc).res = some .WALLET_ERROR) := by
  constructor
  · intro w txid cc rm wtx cc1 iv hip hfind hg hpre
    simp only [CreateRateBumpTransaction, hfind, hg]
    rw [if_neg (fun hne => hne hpre), if_pos hip]
    exact ⟨rfl, rfl⟩
  · intro w txid cc hip
    simp only [CreateTotalBumpTransaction, hip]
    rfl

/-- Claim C10 witness: the concrete Particl wallet `W10` hits the assertion
on a fully resolvable, precondition-passing transaction, and the non-Particl
wallet `W0` gets WALLET_ERROR from the total-bump builder. -/
theorem claim_C10_witness :
    ((CreateRateBumpTransaction W10 1 {} true).res = none ∧
      (CreateRateBumpTransaction W10 1 {} true).builderArg = none) ∧
    (CreateTotalBumpTransaction W0 1 {}).res = some .WALLET_ERROR :=
  ⟨claim_C10.1 W10 1 {} true TXr { setSelected := [⟨11, 0⟩] } 100000 rfl rfl
      rfl (by decide),
   claim_C10.2 W0 1 {} rfl⟩

/-- The precondition checker's error vector stays empty exactly when it was
empty and the check passed. -/
theorem PreconditionChecks_snd_eq_nil_iff (w : Wallet) (wtx : CWalletTx)
    (rm : Bool) (es : List Err) :
    (PreconditionChecks w wtx rm es).2 = [] ↔
      (es = [] ∧ (PreconditionChecks w wtx rm es).1 = .OK) := by
  unfold PreconditionChecks
  split_ifs <;> simp_all

/-- The fee-rate validator's error vector stays empty exactly when it was
empty and the check passed. -/
theorem CheckFeeRate_snd_eq_nil_iff (w : Wallet) (wtx : CWalletTx)
    (fr : CFeeRate) (maxTxSize old_fee : Int) (es : List Err) :
    (CheckFeeRate w wtx fr maxTxSize old_fee es).2 = [] ↔
      (es = [] ∧ (CheckFeeRate w wtx fr maxTxSize old_fee es).1 = .OK) := by
  simp only [CheckFeeRate]
  split_ifs <;> simp_all

/-- Claim C7 (confirmed): a total-bump attempt past the precondition checks
fails with WALLET_ERROR — leaving the out-parameter transaction unassigned —
when the original has zero or multiple recognizable change outputs; and with
exactly one change output whose value is below delta = new_fee − old_fee it
fails with WALLET_ERROR carrying the too-small-to-bump diagnostic. -/
theorem claim_C7 :
    (∀ (w : Wallet) (txid : Nat) (cc : CCoinControl) (wtx : CWalletTx),
      w.isParticlWallet = true →
      w.getWalletTx txid = some wtx →
      (PreconditionChecks w wtx true []).1 = .OK →
      (scanChange w wtx.vpout 0 none = none ∨
        scanChange w wtx.vpout 0 none = some none) →
      (CreateTotalBumpTransaction w txid cc).res = some .WALLET_ERROR ∧
      (CreateTotalBumpTransaction w txid cc).mtx = none) ∧
    (∀ (w : Wallet) (txid : Nat) (cc : CCoinControl) (wtx : CWalletTx) (i : Nat),
      w.isParticlWallet = true →
      w.getWalletTx txid = some wtx →
      (PreconditionChecks w wtx true []).1 = .OK →
      scanChange w wtx.vpout 0 none = some (some i) →
      0 ≤ w.maxSignedTxSize wtx.txid →
      totalBumpNewFee w wtx ≤ w.m_default_max_tx_fee →
      w.mempoolMinFee.GetFeePerK ≤ (totalBumpNewRate w wtx).GetFeePerK →
      0 < totalBumpNewFee w wtx - totalBumpOldFee w wtx →
      ((wtx.vpout.get? i).getD ⟨0, 0⟩).nValue <
        totalBumpNewFee w wtx - totalBumpOldFee w wtx →
      (CreateTotalBumpTransaction w txid cc).res = some .WALLET_ERROR ∧
      (CreateTotalBumpTransaction w txid cc).errors = [.changeTooSmall]) := by
  constructor
  · intro w txid cc wtx hip hfind hpre hsc
    simp only [CreateTotalBumpTransaction, hip, hfind]
    rw [if_neg (by simp), if_neg (fun hne => hne hpre)]
    rcases hsc with hsc | hsc <;> rw [hsc] <;> exact ⟨rfl, rfl⟩
  · intro w txid cc wtx i hip hfind hpre hsc hsz hcap hmp hdelta hsmall
    simp only [CreateTotalBumpTransaction, hip, hfind, hsc]
    rw [if_neg (by simp), if_neg (fun hne => hne hpre),
      if_neg (not_lt.mpr hsz), if_neg (not_lt.mpr hcap), if_neg (not_lt.mpr hmp),
      if_neg (not_le.mpr hdelta), if_pos hsmall]
    exact ⟨rfl, by rw [PreconditionChecks_snd_of_ok w wtx true [] hpre]; simp⟩

/-- Claim C7 witness: the change-free transaction is rejected with no output
mutated, and the 600-satoshi change output is too small against a 2900
delta. -/
theorem claim_C7_witness :
    ((CreateTotalBumpTransaction WT1 1 {}).res = some .WALLET_ERROR ∧
      (CreateTotalBumpTransaction WT1 1 {}).mtx = none) ∧
    ((CreateTotalBumpTransaction WT2 1 {}).res = some .WALLET_ERROR ∧
      (CreateTotalBumpTransaction WT2 1 {}).errors = [.changeTooSmall]) :=
  ⟨claim_C7.1 WT1 1 {} TXtb1 rfl rfl (by decide) (Or.inr rfl),
   claim_C7.2 WT2 1 {} TXtb2 0 rfl rfl (by decide) rfl (by decide) (by decide)
     (by decide) (by decide) (by decide)⟩

/-- Claim C6 (confirmed): on a successful total-bump, if the change value
shrunk by delta lands at or below the dust threshold for that output's
script, the change output is dropped from the built transaction and the final
new_fee is old_fee + delta + the discarded change value; if it stays above
the threshold, the change output remains decreased by exactly delta and
new_fee is the policy fee unchanged. -/
theorem claim_C6 :
    (∀ (w : Wallet) (txid : Nat) (cc : CCoinControl) (wtx : CWalletTx) (i : Nat),
      w.isParticlWallet = true →
      w.getWalletTx txid = some wtx →
      (PreconditionChecks w wtx true []).1 = .OK →
      scanChange w wtx.vpout 0 none = some (some i) →
      0 ≤ w.maxSignedTxSize wtx.txid →
      totalBumpNewFee w wtx ≤ w.m_default_max_tx_fee →
      w.mempoolMinFee.GetFeePerK ≤ (totalBumpNewRate w wtx).GetFeePerK →
      0 < totalBumpNewFee w wtx - totalBumpOldFee w wtx →
      totalBumpNewFee w wtx - totalBumpOldFee w wtx ≤
        ((wtx.vpout.get? i).getD ⟨0, 0⟩).nValue →
      ((wtx.vpout.get? i).getD ⟨0, 0⟩).nValue -
          (totalBumpNewFee w wtx - totalBumpOldFee w wtx) ≤
        w.dustThreshold ((wtx.vpout.get? i).getD ⟨0, 0⟩).scriptPubKey →
      (CreateTotalBumpTransaction w txid cc).res = some .OK ∧
      (CreateTotalBumpTransaction w txid cc).new_fee =
        totalBumpOldFee w wtx + (totalBumpNewFee w wtx - totalBumpOldFee w wtx) +
          (((wtx.vpout.get? i).getD ⟨0, 0⟩).nValue -
            (totalBumpNewFee w wtx - totalBumpOldFee w wtx)) ∧
      (CreateTotalBumpTransaction w txid cc).mtx.map Prod.snd =
        some (wtx.vpout.eraseIdx i)) ∧
    (∀ (w : Wallet) (txid : Nat) (cc : CCoinControl) (wtx : CWalletTx) (i : Nat),
      w.isParticlWallet = true →
      w.getWalletTx txid = some wtx →
      (PreconditionChecks w wtx true []).1 = .OK →
      scanChange w wtx.vpout 0 none = some (some i) →
      0 ≤ w.maxSignedTxSize wtx.txid →
      totalBumpNewFee w wtx ≤ w.m_default_max_tx_fee →
      w.mempoolMinFee.GetFeePerK ≤ (totalBumpNewRate w wtx).GetFeePerK →
      0 < totalBumpNewFee w wtx - totalBumpOldFee w wtx →
      totalBumpNewFee w wtx - totalBumpOldFee w wtx ≤
        ((wtx.vpout.get? i).getD ⟨0, 0⟩).nValue →
      w.dustThreshold ((wtx.vpout.get? i).getD ⟨0, 0⟩).scriptPubKey <
        ((wtx.vpout.get? i).getD ⟨0, 0⟩).nValue -
          (totalBumpNewFee w wtx - totalBumpOldFee w wtx) →
      (CreateTotalBumpTransaction w txid cc).res = some .OK ∧
      (CreateTotalBumpTransaction w txid cc).new_fee = totalBumpNewFee w wtx ∧
      (CreateTotalBumpTransaction w txid cc).mtx.map Prod.snd =
        some (wtx.vpout.set i
          { nValue := ((wtx.vpout.get? i).getD ⟨0, 0⟩).nValue -
              (totalBumpNewFee w wtx - totalBumpOldFee w wtx),
            scriptPubKey := ((wtx.vpout.get? i).getD ⟨0, 0⟩).scriptPubKey })) := by
  constructor
  · intro w txid cc wtx i hip hfind hpre hsc hsz hcap hmp hdelta hfits hdust
    simp only [CreateTotalBumpTransaction, hip, hfind, hsc]
    rw [if_neg (by simp), if_neg (fun hne => hne hpre),
      if_neg (not_lt.mpr hsz), if_neg (not_lt.mpr hcap), if_neg (not_lt.mpr hmp),
      if_neg (not_le.mpr hdelta), if_neg (not_lt.mpr hfits), if_pos hdust]
    exact ⟨rfl, by dsimp only; omega, by simp [eraseIdx_set]⟩
  · intro w txid cc wtx i hip hfind hpre hsc hsz hcap hmp hdelta hfits hkeep
    simp only [CreateTotalBumpTransaction, hip, hfind, hsc]
    rw [if_neg (by simp), if_neg (fun hne => hne hpre),
      if_neg (not_lt.mpr hsz), if_neg (not_lt.mpr hcap), if_neg (not_lt.mpr hmp),
      if_neg (not_le.mpr hdelta), if_neg (not_lt.mpr hfits),
      if_neg (not_le.mpr hkeep)]
    exact ⟨rfl, rfl, rfl⟩

/-- Claim C6 witness: the 2000-satoshi change shrinks to 467 ≤ 546 and is
folded into the fee; the 5000-satoshi change shrinks to 3467 > 546 and is
kept. -/
theorem claim_C6_witness :
    ((CreateTotalBumpTransaction WD1 1 {}).res = some .OK ∧
      (CreateTotalBumpTransaction WD1 1 {}).new_fee =
        totalBumpOldFee WD1 TXd1 +
          (totalBumpNewFee WD1 TXd1 - totalBumpOldFee WD1 TXd1) +
          (((TXd1.vpout.get? 0).getD ⟨0, 0⟩).nValue -
            (totalBumpNewFee WD1 TXd1 - totalBumpOldFee WD1 TXd1)) ∧
      (CreateTotalBumpTransaction WD1 1 {}).mtx.map Prod.snd =
        some (TXd1.vpout.eraseIdx 0)) ∧
    ((CreateTotalBumpTransaction WD2 1 {}).res = some .OK ∧
      (CreateTotalBumpTransaction WD2 1 {}).new_fee = totalBumpNewFee WD2 TXd2 ∧
      (CreateTotalBumpTransaction WD2 1 {}).mtx.map Prod.snd =
        some (TXd2.vpout.set 0
          { nValue := ((TXd2.vpout.get? 0).getD ⟨0, 0⟩).nValue -
              (totalBumpNewFee WD2 TXd2 - totalBumpOldFee WD2 TXd2),
            scriptPubKey := ((TXd2.vpout.get? 0).getD ⟨0, 0⟩).scriptPubKey })) :=
  ⟨claim_C6.1 WD1 1 {} TXd1 0 rfl rfl (by decide) rfl (by decide) (by decide)
      (by decide) (by decide) (by decide) (by decide),
   claim_C6.2 WD2 1 {} TXd2 0 rfl rfl (by decide) rfl (by decide) (by decide)
      (by decide) (by decide) (by decide) (by decide)⟩

/-- Claim C5 counterexample: build-total-bump on a non-Particl wallet returns
WALLET_ERROR with an empty diagnostics list, so OK-iff-empty-diagnostics
fails. -/
theorem claim_C5_cex :
    (CreateTotalBumpTransaction W0 1 {}).res = some .WALLET_ERROR ∧
    (CreateTotalBumpTransaction W0 1 {}).errors = [] ∧
    ¬ ((CreateTotalBumpTransaction W0 1 {}).res = some .OK ↔
        (CreateTotalBumpTransaction W0 1 {}).errors = []) :=
  ⟨rfl, rfl, by decide⟩

/-- Claim C5 as amended: the engine's operations return OK exactly when their
diagnostics list is empty, with two exceptions visible in the code:
build-total-bump on a non-Particl wallet returns WALLET_ERROR with no
diagnostics, and commit returns OK with one diagnostic when the replacement
was broadcast but the original record could not be marked replaced. -/
theorem claim_C5 :
    (∀ (w : Wallet) (txid : Nat) (cc : CCoinControl) (r : Result),
      ((CreateTotalBumpTransaction w txid cc).res = some .OK →
        (CreateTotalBumpTransaction w txid cc).errors = []) ∧
      ((CreateTotalBumpTransaction w txid cc).res = some r → r ≠ .OK →
        (CreateTotalBumpTransaction w txid cc).errors ≠ [] ∨
          (w.isParticlWallet = false ∧ r = .WALLET_ERROR ∧
            (CreateTotalBumpTransaction w txid cc).errors = []))) ∧
    (∀ (w : Wallet) (txid : Nat) (cc : CCoinControl) (rm : Bool) (r : Result),
      (CreateRateBumpTransaction w txid cc rm).res = some r →
      (r = .OK ↔ (CreateRateBumpTransaction w txid cc rm).errors = [])) ∧
    (∀ (w : Wallet) (txid : Nat) (errs : List Err),
      ((CommitTransaction w txid errs).1 = .OK →
        ((CommitTransaction w txid errs).2 = [] ∨
          (w.markReplacedOk = false ∧
            (CommitTransaction w txid errs).2 = [.couldNotMarkReplaced]))) ∧
      ((CommitTransaction w txid errs).1 ≠ .OK →
        (CommitTransaction w txid errs).2 ≠ [])) := by
  refine ⟨?_, ?_, ?_⟩
  · intro w txid cc r
    have key : ∀ t : TotalBumpRet, CreateTotalBumpTransaction w txid cc = t →
        (t.res = some .OK → t.errors = []) ∧
        (t.res = some r → r ≠ .OK → t.errors ≠ [] ∨
          (w.isParticlWallet = false ∧ r = .WALLET_ERROR ∧ t.errors = [])) := by
      intro t ht
      simp only [CreateTotalBumpTransaction] at ht
      repeat' split at ht
      all_goals subst ht
      all_goals constructor
      all_goals intro hr
      all_goals try intro hne
      all_goals try dsimp only at hr
      all_goals try simp only [Option.some.injEq] at hr
      all_goals try subst hr
      all_goals simp_all [PreconditionChecks_snd_eq_nil_iff]
    exact key _ rfl
  · intro w txid cc rm r
    have key : ∀ t : RateBumpRet, CreateRateBumpTransaction w txid cc rm = t →
        t.res = some r → (r = .OK ↔ t.errors = []) := by
      intro t ht
      simp only [CreateRateBumpTransaction, finishBuild] at ht
      repeat' split at ht
      all_goals subst ht
      all_goals intro hr
      all_goals try dsimp only at hr
      all_goals try simp only [Option.some.injEq] at hr
      all_goals try subst hr
      all_goals simp_all [PreconditionChecks_snd_eq_nil_iff, CheckFeeRate_snd_eq_nil_iff]
    exact key _ rfl
  · intro w txid errs
    have key : ∀ t : Result × List Err, CommitTransaction w txid errs = t →
        (t.1 = .OK → (t.2 = [] ∨ (w.markReplacedOk = false ∧
          t.2 = [.couldNotMarkReplaced]))) ∧
        (t.1 ≠ .OK → t.2 ≠ []) := by
      intro t ht
      simp only [CommitTransaction] at ht
      repeat' split at ht
      all_goals subst ht
      all_goals constructor
      all_goals intro hr
      all_goals simp_all [PreconditionChecks_snd_eq_nil_iff]
    exact key _ rfl

/-- Claim C5 witness: a failed mark-replaced gives commit an OK Result with
exactly the non-fatal diagnostic, and a concrete successful rate-bump has
empty diagnostics. -/
theorem claim_C5_witness :
    ((CommitTransaction W5c 1 []).2 = [] ∨
      (W5c.markReplacedOk = false ∧
        (CommitTransaction W5c 1 []).2 = [.couldNotMarkReplaced])) ∧
    (CreateRateBumpTransaction W1 1 {} false).errors = [] :=
  ⟨(claim_C5.2.2 W5c 1 []).1 (by decide),
   (claim_C5.2.1 W1 1 {} false .OK rfl).mp rfl⟩

end FeeBumper
